import Mathlib

/-!
Verification of the core control logic of the Plantproject-ESP32 firmware.

The development shallowly embeds the watering decision engine
(`src/watering.cpp`), the pump safety wrapper (`src/pump.cpp`), the sensor
validity/conversion helpers (`src/sensor.cpp`), the storage setpoint clamp
(`src/storage.cpp`) and the button interaction handler (`src/buttons.cpp`)
as pure Lean functions.  External collaborators (ADC reads, battery and
water-level probes, pump hardware) are modelled as explicit inputs: a single
Boolean or number where the C code samples them once, and a `Nat`-indexed
trace where the C code re-samples them inside a loop.  Machine integers
(`uint8_t`, `uint16_t`, `uint32_t`) are modelled as `Nat`; every arithmetic
operation performed by the code is guarded in the source so that no
wrap-around can occur on the modelled paths (the guards themselves are part
of the embedding and are proved to make the subtraction safe).
-/

namespace Plant

/-! ### Constants from `config.h` -/

def ADC_MAX_VALUE : Nat := 4095
def DEFAULT_MINIMAL_HUMIDITY : Nat := 40
def DEFAULT_MAX_HUMIDITY : Nat := 70
def PUMP_RUN_DURATION_MS : Nat := 3000
def PUMP_MAX_DURATION_MS : Nat := 10000
def MAX_PUMP_PULSES : Nat := 8
def MIN_WATERING_INTERVAL_SEC : Nat := 3 * 60 * 60
def BTN_LONG_PRESS_MS : Nat := 2000
def HUMIDITY_STEP : Nat := 5

/-! ### Result codes from `watering.h` -/

inductive WateringResult where
  | WATER_OK
  | WATER_PARTIAL
  | WATER_NOT_NEEDED
  | WATER_BATTERY_LOW
  | WATER_RESERVOIR_LOW
  | WATER_TOO_SOON
  | WATER_SENSOR_ERROR
  | WATER_PUMP_FAILED
deriving DecidableEq, Repr

open WateringResult

/-! ### Sensor helpers (`sensor.cpp`) -/

/-- `sensor_reading_valid` from `sensor.cpp`: a raw ADC sample below 100 or
above `ADC_MAX_VALUE - 100` indicates a disconnected sensor. -/
def sensor_reading_valid (raw_value : Nat) : Bool :=
  if raw_value < 100 then false
  else if raw_value > ADC_MAX_VALUE - 100 then false
  else true

/-- `sensor_raw_to_humidity_percent` from `sensor.cpp`.  The calibration
values `dry_value` and `wet_value` are read from storage in the C code and
passed explicitly here.  All intermediate int32 quantities in the source are
non-negative on every path, so `Nat` arithmetic coincides with the C
arithmetic; the final negative-clamp of the source is vacuous in `Nat`. -/
def sensor_raw_to_humidity_percent (dry_value wet_value raw : Nat) : Nat :=
  if dry_value = wet_value then 50
  else
    let percent :=
      if wet_value < dry_value then
        if dry_value ≤ raw then 0
        else if raw ≤ wet_value then 100
        else (dry_value - raw) * 100 / (dry_value - wet_value)
      else
        if raw ≤ dry_value then 0
        else if wet_value ≤ raw then 100
        else (raw - dry_value) * 100 / (wet_value - dry_value)
    if 100 < percent then 100 else percent

/-! ### Interval gate (`watering.cpp`, `interval_elapsed`) -/

/-- `interval_elapsed` from `watering.cpp`.  `last_watering` is the stored
last-watering timestamp, `current_time` the persisted monotonic time in
seconds.  The two guards (never watered; corrupted store larger than the
clock) make the `uint32_t` subtraction exact, so `Nat` subtraction agrees
with the source. -/
def interval_elapsed (last_watering current_time : Nat) : Bool :=
  if last_watering = 0 then true
  else if current_time < last_watering then true
  else decide (current_time - last_watering ≥ MIN_WATERING_INTERVAL_SEC)

/-! ### Pump safety wrapper (`pump.cpp`, `pump_run_timed`) -/

/-- Busy-wait loop of `pump_run_timed`, at one-millisecond granularity:
`batt t` is the value `battery_watering_allowed()` would return at the
`t`-th check (`batt 0` is the pre-start check).  The source loop runs while
`millis() - start < duration_ms`; here `remaining` is the milliseconds left
until that bound (`duration - elapsed`), so the while-condition
`elapsed < duration` is exactly `remaining ≠ 0`.  Each step re-checks the
battery and aborts with an emergency stop when it fails.  Returns
`(completed, on_time_ms)`. -/
def pump_run_loop (batt : Nat → Bool) : Nat → Nat → Bool × Nat
  | 0, elapsed => (true, elapsed)
  | remaining + 1, elapsed =>
    if batt (elapsed + 1) = false then (false, elapsed)
    else pump_run_loop batt remaining (elapsed + 1)

/-- `pump_run_timed` from `pump.cpp`: clamp the requested duration to
`PUMP_MAX_DURATION_MS`, refuse to start when the battery gate fails, then
run the checked busy-wait loop. -/
def pump_run_timed (batt : Nat → Bool) (duration_ms : Nat) : Bool × Nat :=
  let d := if duration_ms > PUMP_MAX_DURATION_MS then PUMP_MAX_DURATION_MS
           else duration_ms
  if batt 0 = false then (false, 0)
  else pump_run_loop batt d 0

/-! ### Pulse-pump loop (`watering.cpp`, `pump_until_max`) -/

/-- Per-pulse external inputs of the pulse loop.  Index `k` describes the
iteration whose pump call is the `(k+1)`-th: `pump_success k` is the result
of `pump_run_timed` on that iteration, `resample_raw k` the raw sensor value
read after its soak wait, and `battery_ok k` / `water_low k` the safety
re-checks taken before the next pulse. -/
structure PulseEnv where
  pump_success : Nat → Bool
  resample_raw : Nat → Nat
  battery_ok : Nat → Bool
  water_low : Nat → Bool

/-- Observable outcome of the pulse loop: the returned result code, the
number of completed pump pulses, and the number of `pump_run_timed`
invocations (pulses plus one for a failed attempt). -/
structure PulseOutcome where
  result : WateringResult
  pulses : Nat
  pump_calls : Nat
deriving DecidableEq, Repr

/-- The `while (pulses < MAX_PUMP_PULSES)` body of `pump_until_max` from
`watering.cpp`.  `remaining` is `MAX_PUMP_PULSES - pulses`, so the
while-condition `pulses < MAX_PUMP_PULSES` is exactly `remaining ≠ 0`.
One iteration: run one pump pulse (first-pulse failure is a pump error, a
later failure stops with partial success), soak, re-read the sensor (an
invalid mid-loop reading stops safely), stop with success once the derived
humidity reaches `DEFAULT_MAX_HUMIDITY`, and re-check the battery and
reservoir gates before looping. -/
def pump_until_max_loop (dry wet : Nat) (env : PulseEnv) :
    Nat → Nat → PulseOutcome
  | 0, pulses => ⟨WATER_PARTIAL, pulses, pulses⟩
  | remaining + 1, pulses =>
    if env.pump_success pulses = false then
      if pulses = 0 then ⟨WATER_PUMP_FAILED, 0, 1⟩
      else ⟨WATER_PARTIAL, pulses, pulses + 1⟩
    else
      let raw := env.resample_raw pulses
      if sensor_reading_valid raw = false then
        ⟨WATER_PARTIAL, pulses + 1, pulses + 1⟩
      else if sensor_raw_to_humidity_percent dry wet raw ≥ DEFAULT_MAX_HUMIDITY then
        ⟨WATER_OK, pulses + 1, pulses + 1⟩
      else if env.battery_ok pulses = false then
        ⟨WATER_PARTIAL, pulses + 1, pulses + 1⟩
      else if env.water_low pulses = true then
        ⟨WATER_PARTIAL, pulses + 1, pulses + 1⟩
      else pump_until_max_loop dry wet env remaining (pulses + 1)

/-- `pump_until_max` from `watering.cpp`, started with zero pulses (hence
`MAX_PUMP_PULSES` remaining iterations). -/
def pump_until_max (dry wet : Nat) (env : PulseEnv) : PulseOutcome :=
  pump_until_max_loop dry wet env MAX_PUMP_PULSES 0

/-! ### Decision engine (`watering.cpp`) -/

/-- External inputs of one `watering_check_and_execute` invocation: the
initial raw sensor sample, the stored calibration pair, the stored minimal
humidity threshold, the one-shot reservoir and battery gate samples, the
persisted clock, and the pulse-loop trace. -/
structure CheckEnv where
  raw : Nat
  dry : Nat
  wet : Nat
  minimal : Nat
  water_low : Bool
  battery_ok : Bool
  current_time : Nat
  pulse : PulseEnv

/-- Observable outcome of a decision-engine invocation: the result code,
the number of `pump_run_timed` invocations, and the stored last-watering
timestamp after the call. -/
structure CheckOutcome where
  result : WateringResult
  pump_calls : Nat
  last_watering : Nat
deriving DecidableEq, Repr

/-- `watering_check_and_execute` from `watering.cpp`: validate the sensor,
compare the derived humidity with the stored minimal threshold, check the
reservoir, battery and interval gates in that order (short-circuiting), run
the pulse loop, and commit the new last-watering timestamp exactly for the
`WATER_OK` / `WATER_PARTIAL` outcomes. -/
def watering_check_and_execute (env : CheckEnv) (last_watering : Nat) :
    CheckOutcome :=
  if sensor_reading_valid env.raw = false then
    ⟨WATER_SENSOR_ERROR, 0, last_watering⟩
  else
    let humidity := sensor_raw_to_humidity_percent env.dry env.wet env.raw
    if humidity ≥ env.minimal then ⟨WATER_NOT_NEEDED, 0, last_watering⟩
    else if env.water_low then ⟨WATER_RESERVOIR_LOW, 0, last_watering⟩
    else if env.battery_ok = false then ⟨WATER_BATTERY_LOW, 0, last_watering⟩
    else if interval_elapsed last_watering env.current_time = false then
      ⟨WATER_TOO_SOON, 0, last_watering⟩
    else
      let o := pump_until_max env.dry env.wet env.pulse
      if o.result = WATER_OK ∨ o.result = WATER_PARTIAL then
        ⟨o.result, o.pump_calls, env.current_time⟩
      else ⟨o.result, o.pump_calls, last_watering⟩

/-- `watering_manual` from `watering.cpp`: reservoir and battery gates are
checked unconditionally, the interval gate only when `force_override` is
false, then a single pump pulse is attempted and the timestamp committed on
success. -/
def watering_manual (force_override : Bool)
    (water_low battery_ok pump_success : Bool)
    (last_watering current_time : Nat) : CheckOutcome :=
  if water_low then ⟨WATER_RESERVOIR_LOW, 0, last_watering⟩
  else if battery_ok = false then ⟨WATER_BATTERY_LOW, 0, last_watering⟩
  else if force_override = false ∧
       interval_elapsed last_watering current_time = false then
    ⟨WATER_TOO_SOON, 0, last_watering⟩
  else if pump_success = false then ⟨WATER_PUMP_FAILED, 1, last_watering⟩
  else ⟨WATER_OK, 1, current_time⟩

/-! ### Press classification (`buttons.cpp`, `button_wait_event`) -/

/-- Button event codes from `buttons.h`. -/
inductive BtnEvent where
  | BTN_EVENT_NONE
  | BTN_EVENT_SHORT_PRESS
  | BTN_EVENT_LONG_PRESS
deriving DecidableEq, Repr

open BtnEvent

/-- Hold-measurement loop of `button_wait_event` from `buttons.cpp`, at
one-millisecond polling granularity.  While the button is held the loop
observes `press_duration_ms = t`; once the duration reaches
`BTN_LONG_PRESS_MS` and the event is not already `BTN_EVENT_LONG_PRESS`, it
latches `BTN_EVENT_LONG_PRESS` (counted in `latches`).  A press held for
`hold_ms` milliseconds is observed at durations `0, 1, …, hold_ms`, so the
loop is entered with `remaining = hold_ms + 1`; at release, an event that
was never latched long is finalized as `BTN_EVENT_SHORT_PRESS`.  Returns
`(event, latches)`. -/
def button_wait_event_loop : Nat → Nat → BtnEvent → Nat → BtnEvent × Nat
  | 0, _, ev, latches =>
    (if ev ≠ BTN_EVENT_LONG_PRESS then BTN_EVENT_SHORT_PRESS else ev, latches)
  | remaining + 1, t, ev, latches =>
    if BTN_LONG_PRESS_MS ≤ t ∧ ev ≠ BTN_EVENT_LONG_PRESS then
      button_wait_event_loop remaining (t + 1) BTN_EVENT_LONG_PRESS (latches + 1)
    else
      button_wait_event_loop remaining (t + 1) ev latches

/-- Press classification performed by `button_wait_event` from
`buttons.cpp` for a single press held `hold_ms` milliseconds: the event
starts as `BTN_EVENT_SHORT_PRESS` (set by `button_check` on detection) and
is measured by the hold loop. -/
def button_wait_event (hold_ms : Nat) : BtnEvent × Nat :=
  button_wait_event_loop (hold_ms + 1) 0 BTN_EVENT_SHORT_PRESS 0

/-! ### Interaction handler (`buttons.cpp`, `buttons_handle_interaction`)

The handler is blocking code driven by `millis()`; it is embedded for the
scenario of one uniform press session in which the three buttons (Main,
Cal-Wet a.k.a. Cal-A, Cal-Dry a.k.a. Cal-B) are pressed simultaneously and
each is held short of, or past, the long-press threshold as described by a
per-button `PressOutcome`.  Under this timing model, a button combination is
pressed at entry exactly when each of its buttons has a non-`NONE` outcome,
and it is still held when the long-press threshold elapses exactly when each
of its buttons has outcome `LONG`. -/

/-- Classified outcome of one button over a press session. -/
inductive PressOutcome where
  | NONE
  | SHORT
  | LONG
deriving DecidableEq, Repr

open PressOutcome

/-- Button identifiers from `buttons.h`. -/
inductive ButtonId where
  | BTN_NONE
  | BTN_MAIN
  | BTN_CAL_WET
  | BTN_CAL_DRY
deriving DecidableEq, Repr

open ButtonId

/-- One-shot action performed by `buttons_handle_interaction`. -/
inductive ButtonAction where
  | ACT_CALIBRATION_MODE
  | ACT_HUMIDITY_ADJUSTMENT
  | ACT_MANUAL_WATERING
  | ACT_DISPLAY_HUMIDITY
  | ACT_CAL_BUTTON_IGNORED
  | ACT_NO_ACTION
deriving DecidableEq, Repr

open ButtonAction

/-- A button participates in a combination check iff it is pressed at entry,
i.e. its session outcome is not `NONE`. -/
def outcome_pressed (o : PressOutcome) : Bool :=
  decide (o ≠ PressOutcome.NONE)

/-- `button_check` from `buttons.cpp` reports the first pressed button in
the order Main, Cal-Wet, Cal-Dry; `button_wait_event` measures that
button. -/
def first_pressed_button (m a b : PressOutcome) : ButtonId :=
  if outcome_pressed m then BTN_MAIN
  else if outcome_pressed a then BTN_CAL_WET
  else if outcome_pressed b then BTN_CAL_DRY
  else ButtonId.BTN_NONE

/-- Decision structure of `buttons_handle_interaction` from `buttons.cpp`
under the uniform-press timing model, for the session outcomes
`(m, a, b)` of (Main, Cal-Wet, Cal-Dry):
1. all three buttons pressed and the full combo still held at the
   long-press threshold → calibration mode;
2. otherwise Main and Cal-Wet pressed and held to the threshold →
   humidity (target) adjustment;
3. otherwise `button_wait_event` on the first pressed button: Main long →
   manual watering, Main short → display humidity, a calibration button
   alone → deliberately ignored (red blink), no button → no action. -/
def buttons_handle_interaction (m a b : PressOutcome) : ButtonAction :=
  if outcome_pressed m && outcome_pressed a && outcome_pressed b &&
     (decide (m = LONG) && decide (a = LONG) && decide (b = LONG)) then
    ACT_CALIBRATION_MODE
  else if outcome_pressed m && outcome_pressed a &&
       (decide (m = LONG) && decide (a = LONG)) then
    ACT_HUMIDITY_ADJUSTMENT
  else
    match first_pressed_button m a b with
    | BTN_MAIN => if m = LONG then ACT_MANUAL_WATERING else ACT_DISPLAY_HUMIDITY
    | BTN_CAL_WET => ACT_CAL_BUTTON_IGNORED
    | BTN_CAL_DRY => ACT_CAL_BUTTON_IGNORED
    | ButtonId.BTN_NONE => ACT_NO_ACTION

/-! ### Target-humidity adjustment (`buttons.cpp`, `storage.cpp`) -/

/-- An adjustment press inside `handle_humidity_adjustment`: a press on the
Cal-Wet button (increase) or on the Cal-Dry button (decrease). -/
inductive AdjustPress where
  | inc
  | dec
deriving DecidableEq, Repr

/-- One iteration of the adjustment loop in `handle_humidity_adjustment`
from `buttons.cpp`: `+5` only when the current value is at most 95, `−5`
only when it is at least 5. -/
def humidity_adjust_step (current : Nat) (p : AdjustPress) : Nat :=
  match p with
  | AdjustPress.inc => if current ≤ 95 then current + 5 else current
  | AdjustPress.dec => if 5 ≤ current then current - 5 else current

/-- `storage_set_optimal_humidity` from `storage.cpp`: clamp values above
100 to 100 before writing; returns the value actually stored. -/
def storage_set_optimal_humidity (percent : Nat) : Nat :=
  if percent > 100 then 100 else percent

/-- `handle_humidity_adjustment` from `buttons.cpp`, abstracted over the
sequence of recognized adjustment presses: fold the step over the starting
value read from storage, then store the result through the clamping setter.
Returns the value finally stored. -/
def handle_humidity_adjustment (start : Nat) (presses : List AdjustPress) :
    Nat :=
  storage_set_optimal_humidity (presses.foldl humidity_adjust_step start)

/-! ## Helper lemmas -/

theorem humidity_adjust_step_le (c : Nat) (hc : c ≤ 100) (p : AdjustPress) :
    humidity_adjust_step c p ≤ 100 := by
  cases p <;> simp only [humidity_adjust_step] <;> split <;> omega

theorem humidity_adjust_foldl_le (presses : List AdjustPress) :
    ∀ start : Nat, start ≤ 100 →
      presses.foldl humidity_adjust_step start ≤ 100 := by
  induction presses with
  | nil => intro start h; simpa using h
  | cons p ps ih =>
    intro start h
    simpa using ih (humidity_adjust_step start p) (humidity_adjust_step_le start h p)

theorem button_loop_stays_long (r : Nat) :
    ∀ t latches : Nat,
      button_wait_event_loop r t BTN_EVENT_LONG_PRESS latches =
        (BTN_EVENT_LONG_PRESS, latches) := by
  induction r with
  | zero => intro t latches; simp [button_wait_event_loop]
  | succ r ih =>
    intro t latches
    simp only [button_wait_event_loop, ne_eq, not_true_eq_false, and_false,
      if_false]
    exact ih (t + 1) latches

theorem button_loop_short_of_released_early (r : Nat) :
    ∀ t latches : Nat, t + r ≤ BTN_LONG_PRESS_MS →
      button_wait_event_loop r t BTN_EVENT_SHORT_PRESS latches =
        (BTN_EVENT_SHORT_PRESS, latches) := by
  induction r with
  | zero => intro t latches _; simp [button_wait_event_loop]
  | succ r ih =>
    intro t latches h
    have ht : ¬ BTN_LONG_PRESS_MS ≤ t := by
      simp only [BTN_LONG_PRESS_MS] at h ⊢; omega
    simp only [button_wait_event_loop, ht, false_and, if_false]
    exact ih (t + 1) latches (by omega)

theorem button_loop_latches_once (r : Nat) :
    ∀ t latches : Nat, BTN_LONG_PRESS_MS ≤ t + r →
      button_wait_event_loop (r + 1) t BTN_EVENT_SHORT_PRESS latches =
        (BTN_EVENT_LONG_PRESS, latches + 1) := by
  induction r with
  | zero =>
    intro t latches h
    simp only [Nat.add_zero] at h
    simp only [button_wait_event_loop, h, ne_eq, true_and]
    simp [button_loop_stays_long]
  | succ r ih =>
    intro t latches h
    by_cases ht : BTN_LONG_PRESS_MS ≤ t
    · simp only [button_wait_event_loop, ht, ne_eq, true_and]
      simp [button_loop_stays_long]
    · simp only [button_wait_event_loop, ht, false_and, if_false]
      exact ih (t + 1) latches (by omega)

theorem button_wait_event_of_ge (hold_ms : Nat)
    (h : BTN_LONG_PRESS_MS ≤ hold_ms) :
    button_wait_event hold_ms = (BTN_EVENT_LONG_PRESS, 1) := by
  simpa using button_loop_latches_once hold_ms 0 0 (by omega)

theorem button_wait_event_of_lt (hold_ms : Nat)
    (h : hold_ms < BTN_LONG_PRESS_MS) :
    button_wait_event hold_ms = (BTN_EVENT_SHORT_PRESS, 0) := by
  exact button_loop_short_of_released_early (hold_ms + 1) 0 0 (by omega)

theorem pump_run_loop_snd_le (batt : Nat → Bool) (r : Nat) :
    ∀ elapsed : Nat, (pump_run_loop batt r elapsed).2 ≤ elapsed + r := by
  induction r with
  | zero => intro elapsed; simp [pump_run_loop]
  | succ r ih =>
    intro elapsed
    simp only [pump_run_loop]
    split
    · simp
    · exact le_trans (ih (elapsed + 1)) (by omega)

theorem pump_run_loop_fst_true (batt : Nat → Bool) (r : Nat) :
    ∀ elapsed : Nat, (pump_run_loop batt r elapsed).1 = true →
      (pump_run_loop batt r elapsed).2 = elapsed + r := by
  induction r with
  | zero => intro elapsed _; simp [pump_run_loop]
  | succ r ih =>
    intro elapsed h
    simp only [pump_run_loop] at h ⊢
    split at h
    · simp at h
    · rename_i hb
      rw [if_neg hb, ih (elapsed + 1) h]
      omega

theorem pump_until_max_loop_succ (dry wet : Nat) (env : PulseEnv)
    (r pulses : Nat) :
    pump_until_max_loop dry wet env (r + 1) pulses =
      (if env.pump_success pulses = false then
        if pulses = 0 then ⟨WATER_PUMP_FAILED, 0, 1⟩
        else ⟨WATER_PARTIAL, pulses, pulses + 1⟩
      else if sensor_reading_valid (env.resample_raw pulses) = false then
        ⟨WATER_PARTIAL, pulses + 1, pulses + 1⟩
      else if sensor_raw_to_humidity_percent dry wet (env.resample_raw pulses) ≥
          DEFAULT_MAX_HUMIDITY then
        ⟨WATER_OK, pulses + 1, pulses + 1⟩
      else if env.battery_ok pulses = false then
        ⟨WATER_PARTIAL, pulses + 1, pulses + 1⟩
      else if env.water_low pulses = true then
        ⟨WATER_PARTIAL, pulses + 1, pulses + 1⟩
      else pump_until_max_loop dry wet env r (pulses + 1)) := rfl

theorem pulse_loop_calls_le (dry wet : Nat) (env : PulseEnv) (r : Nat) :
    ∀ pulses : Nat,
      (pump_until_max_loop dry wet env r pulses).pump_calls ≤ pulses + r := by
  induction r with
  | zero => intro pulses; simp [pump_until_max_loop]
  | succ r ih =>
    intro pulses
    simp only [pump_until_max_loop]
    split
    · split
      · show 1 ≤ pulses + (r + 1)
        omega
      · show pulses + 1 ≤ pulses + (r + 1)
        omega
    · split
      · simp
      · split
        · simp
        · split
          · simp
          · split
            · simp
            · exact le_trans (ih (pulses + 1)) (by omega)

theorem pulse_loop_no_fail_of_pos (dry wet : Nat) (env : PulseEnv) (r : Nat) :
    ∀ pulses : Nat, 1 ≤ pulses →
      (pump_until_max_loop dry wet env r pulses).result ≠ WATER_PUMP_FAILED := by
  induction r with
  | zero => intro pulses _; simp [pump_until_max_loop]
  | succ r ih =>
    intro pulses hp
    simp only [pump_until_max_loop]
    split
    · split
      · omega
      · simp
    · split
      · simp
      · split
        · simp
        · split
          · simp
          · split
            · simp
            · exact ih (pulses + 1) (by omega)

theorem pulse_loop_all_low (dry wet : Nat) (env : PulseEnv)
    (hpump : ∀ k, env.pump_success k = true)
    (hbatt : ∀ k, env.battery_ok k = true)
    (hwater : ∀ k, env.water_low k = false)
    (hvalid : ∀ k, sensor_reading_valid (env.resample_raw k) = true)
    (hlow : ∀ k, sensor_raw_to_humidity_percent dry wet (env.resample_raw k) <
      DEFAULT_MAX_HUMIDITY) (r : Nat) :
    ∀ pulses : Nat,
      pump_until_max_loop dry wet env r pulses =
        ⟨WATER_PARTIAL, pulses + r, pulses + r⟩ := by
  induction r with
  | zero => intro pulses; simp [pump_until_max_loop]
  | succ r ih =>
    intro pulses
    have hnot : ¬ sensor_raw_to_humidity_percent dry wet
        (env.resample_raw pulses) ≥ DEFAULT_MAX_HUMIDITY :=
      Nat.not_le.mpr (hlow pulses)
    have c1 : ¬ env.pump_success pulses = false := by simp [hpump pulses]
    have c2 : ¬ sensor_reading_valid (env.resample_raw pulses) = false := by
      simp [hvalid pulses]
    have c3 : ¬ env.battery_ok pulses = false := by simp [hbatt pulses]
    have c4 : ¬ env.water_low pulses = true := by simp [hwater pulses]
    simp only [pump_until_max_loop]
    rw [if_neg c1, if_neg c2, if_neg hnot, if_neg c3, if_neg c4,
      ih (pulses + 1)]
    have harith : pulses + 1 + r = pulses + (r + 1) := by omega
    rw [harith]

theorem pulse_loop_first_hit (dry wet : Nat) (env : PulseEnv)
    (hpump : ∀ k, env.pump_success k = true)
    (hvalid : ∀ k, sensor_reading_valid (env.resample_raw k) = true)
    (i : Nat)
    (hhit : DEFAULT_MAX_HUMIDITY ≤
      sensor_raw_to_humidity_percent dry wet (env.resample_raw i))
    (hbefore : ∀ j, j < i →
      sensor_raw_to_humidity_percent dry wet (env.resample_raw j) <
        DEFAULT_MAX_HUMIDITY)
    (hbatt : ∀ k, env.battery_ok k = true)
    (hwater : ∀ k, env.water_low k = false) (r : Nat) :
    ∀ pulses : Nat, pulses ≤ i → i < pulses + r →
      pump_until_max_loop dry wet env r pulses = ⟨WATER_OK, i + 1, i + 1⟩ := by
  induction r with
  | zero => intro pulses h1 h2; omega
  | succ r ih =>
    intro pulses h1 h2
    have c1 : ¬ env.pump_success pulses = false := by simp [hpump pulses]
    have c2 : ¬ sensor_reading_valid (env.resample_raw pulses) = false := by
      simp [hvalid pulses]
    by_cases hpi : pulses = i
    · subst hpi
      simp only [pump_until_max_loop]
      rw [if_neg c1, if_neg c2, if_pos hhit]
    · have hlt : pulses < i := by omega
      have hnot : ¬ sensor_raw_to_humidity_percent dry wet
          (env.resample_raw pulses) ≥ DEFAULT_MAX_HUMIDITY :=
        Nat.not_le.mpr (hbefore pulses hlt)
      have c3 : ¬ env.battery_ok pulses = false := by simp [hbatt pulses]
      have c4 : ¬ env.water_low pulses = true := by simp [hwater pulses]
      simp only [pump_until_max_loop]
      rw [if_neg c1, if_neg c2, if_neg hnot, if_neg c3, if_neg c4]
      exact ih (pulses + 1) (by omega) (by omega)

theorem check_invalid (env : CheckEnv) (last : Nat)
    (h : sensor_reading_valid env.raw = false) :
    watering_check_and_execute env last = ⟨WATER_SENSOR_ERROR, 0, last⟩ := by
  simp [watering_check_and_execute, h]

theorem check_not_needed (env : CheckEnv) (last : Nat)
    (h1 : sensor_reading_valid env.raw = true)
    (h2 : env.minimal ≤ sensor_raw_to_humidity_percent env.dry env.wet env.raw) :
    watering_check_and_execute env last = ⟨WATER_NOT_NEEDED, 0, last⟩ := by
  simp only [watering_check_and_execute]
  rw [if_neg (by simp [h1]), if_pos h2]

theorem check_reservoir (env : CheckEnv) (last : Nat)
    (h1 : sensor_reading_valid env.raw = true)
    (h2 : sensor_raw_to_humidity_percent env.dry env.wet env.raw < env.minimal)
    (h3 : env.water_low = true) :
    watering_check_and_execute env last = ⟨WATER_RESERVOIR_LOW, 0, last⟩ := by
  simp only [watering_check_and_execute]
  rw [if_neg (by simp [h1]), if_neg (Nat.not_le.mpr h2), if_pos h3]

theorem check_battery (env : CheckEnv) (last : Nat)
    (h1 : sensor_reading_valid env.raw = true)
    (h2 : sensor_raw_to_humidity_percent env.dry env.wet env.raw < env.minimal)
    (h3 : env.water_low = false) (h4 : env.battery_ok = false) :
    watering_check_and_execute env last = ⟨WATER_BATTERY_LOW, 0, last⟩ := by
  simp only [watering_check_and_execute]
  rw [if_neg (by simp [h1]), if_neg (Nat.not_le.mpr h2),
    if_neg (by simp [h3]), if_pos h4]

theorem check_too_soon (env : CheckEnv) (last : Nat)
    (h1 : sensor_reading_valid env.raw = true)
    (h2 : sensor_raw_to_humidity_percent env.dry env.wet env.raw < env.minimal)
    (h3 : env.water_low = false) (h4 : env.battery_ok = true)
    (h5 : interval_elapsed last env.current_time = false) :
    watering_check_and_execute env last = ⟨WATER_TOO_SOON, 0, last⟩ := by
  simp only [watering_check_and_execute]
  rw [if_neg (by simp [h1]), if_neg (Nat.not_le.mpr h2),
    if_neg (by simp [h3]), if_neg (by simp [h4]), if_pos (by simp [h5])]

theorem check_pump (env : CheckEnv) (last : Nat)
    (h1 : sensor_reading_valid env.raw = true)
    (h2 : sensor_raw_to_humidity_percent env.dry env.wet env.raw < env.minimal)
    (h3 : env.water_low = false) (h4 : env.battery_ok = true)
    (h5 : interval_elapsed last env.current_time = true) :
    watering_check_and_execute env last =
      (if (pump_until_max env.dry env.wet env.pulse).result = WATER_OK ∨
          (pump_until_max env.dry env.wet env.pulse).result = WATER_PARTIAL
       then ⟨(pump_until_max env.dry env.wet env.pulse).result,
             (pump_until_max env.dry env.wet env.pulse).pump_calls,
             env.current_time⟩
       else ⟨(pump_until_max env.dry env.wet env.pulse).result,
             (pump_until_max env.dry env.wet env.pulse).pump_calls,
             last⟩) := by
  simp only [watering_check_and_execute]
  rw [if_neg (by simp [h1]), if_neg (Nat.not_le.mpr h2),
    if_neg (by simp [h3]), if_neg (by simp [h4]), if_neg (by simp [h5])]

theorem check_timestamp_spec (env : CheckEnv) (last : Nat) :
    ((watering_check_and_execute env last).result = WATER_OK ∨
      (watering_check_and_execute env last).result = WATER_PARTIAL →
      (watering_check_and_execute env last).last_watering =
        env.current_time) ∧
    ((watering_check_and_execute env last).result ≠ WATER_OK →
      (watering_check_and_execute env last).result ≠ WATER_PARTIAL →
      (watering_check_and_execute env last).last_watering = last) := by
  by_cases v : sensor_reading_valid env.raw = false
  · rw [check_invalid env last v]
    exact ⟨fun hor => absurd hor (by simp), fun _ _ => rfl⟩
  · have v1 : sensor_reading_valid env.raw = true := by
      cases hvv : sensor_reading_valid env.raw
      · exact absurd hvv v
      · rfl
    by_cases hh : env.minimal ≤
        sensor_raw_to_humidity_percent env.dry env.wet env.raw
    · rw [check_not_needed env last v1 hh]
      exact ⟨fun hor => absurd hor (by simp), fun _ _ => rfl⟩
    · have hh1 := Nat.not_le.mp hh
      by_cases hw : env.water_low = true
      · rw [check_reservoir env last v1 hh1 hw]
        exact ⟨fun hor => absurd hor (by simp), fun _ _ => rfl⟩
      · have hw1 : env.water_low = false := by simpa using hw
        by_cases hb : env.battery_ok = true
        · by_cases hi : interval_elapsed last env.current_time = true
          · rw [check_pump env last v1 hh1 hw1 hb hi]
            generalize pump_until_max env.dry env.wet env.pulse = o
            split_ifs with hc
            · refine ⟨fun _ => rfl, fun hA hB => ?_⟩
              rcases hc with hc | hc
              · exact absurd hc hA
              · exact absurd hc hB
            · exact ⟨fun hor => absurd hor hc, fun _ _ => rfl⟩
          · have hi1 : interval_elapsed last env.current_time = false := by
              simpa using hi
            rw [check_too_soon env last v1 hh1 hw1 hb hi1]
            exact ⟨fun hor => absurd hor (by simp), fun _ _ => rfl⟩
        · have hb1 : env.battery_ok = false := by simpa using hb
          rw [check_battery env last v1 hh1 hw1 hb1]
          exact ⟨fun hor => absurd hor (by simp), fun _ _ => rfl⟩

/-! ## Claim theorems -/

/-- Claim C6: the interval gate is elapsed when the stored last-watering
timestamp is 0; elapsed when the persisted clock is smaller than the stored
timestamp (corruption guard, no underflow); otherwise elapsed exactly when
the difference reaches `MIN_WATERING_INTERVAL_SEC` — in particular it is
false one second before the interval boundary and true at the boundary. -/
theorem interval_elapsed_spec (last cur : Nat) :
    (last = 0 → interval_elapsed last cur = true) ∧
    (cur < last → interval_elapsed last cur = true) ∧
    (last ≠ 0 → last ≤ cur →
      (interval_elapsed last cur = true ↔
        MIN_WATERING_INTERVAL_SEC ≤ cur - last)) ∧
    (last ≠ 0 →
      interval_elapsed last (last + (MIN_WATERING_INTERVAL_SEC - 1)) = false ∧
      interval_elapsed last (last + MIN_WATERING_INTERVAL_SEC) = true) := by
  refine ⟨?_, ?_, ?_, ?_⟩
  · intro h; simp [interval_elapsed, h]
  · intro h
    by_cases h0 : last = 0
    · simp [interval_elapsed, h0]
    · simp only [interval_elapsed]
      rw [if_neg h0, if_pos h]
  · intro h0 hle
    simp only [interval_elapsed]
    rw [if_neg h0, if_neg (Nat.not_lt.mpr hle)]
    simp [ge_iff_le]
  · intro h0
    constructor
    · simp only [interval_elapsed]
      rw [if_neg h0,
        if_neg (show ¬ last + (MIN_WATERING_INTERVAL_SEC - 1) < last by omega)]
      simp only [ge_iff_le, decide_eq_false_iff_not, Nat.not_le,
        MIN_WATERING_INTERVAL_SEC]
      omega
    · simp only [interval_elapsed]
      rw [if_neg h0,
        if_neg (show ¬ last + MIN_WATERING_INTERVAL_SEC < last by omega)]
      simp only [ge_iff_le, decide_eq_true_eq, MIN_WATERING_INTERVAL_SEC]
      omega

/-- Claim C6 witness: concrete boundary instances of the interval gate. -/
theorem interval_elapsed_spec_witness :
    interval_elapsed 0 0 = true ∧
    interval_elapsed 7 (7 + (MIN_WATERING_INTERVAL_SEC - 1)) = false ∧
    interval_elapsed 7 (7 + MIN_WATERING_INTERVAL_SEC) = true :=
  ⟨(interval_elapsed_spec 0 0).1 rfl,
   ((interval_elapsed_spec 7 0).2.2.2 (by decide)).1,
   ((interval_elapsed_spec 7 0).2.2.2 (by decide)).2⟩

/-- Claim C9: any raw soil sample outside the plausible band (below 100 or
above `ADC_MAX_VALUE - 100`) makes the validity predicate false, and
`watering_check_and_execute` then returns `WATER_SENSOR_ERROR` with no pump
activation and the stored last-watering timestamp unchanged. -/
theorem sensor_error_no_pump (env : CheckEnv) (last : Nat)
    (h : env.raw < 100 ∨ ADC_MAX_VALUE - 100 < env.raw) :
    sensor_reading_valid env.raw = false ∧
    watering_check_and_execute env last = ⟨WATER_SENSOR_ERROR, 0, last⟩ := by
  have hv : sensor_reading_valid env.raw = false := by
    simp only [sensor_reading_valid, ADC_MAX_VALUE] at h ⊢
    split_ifs with h1 h2
    · rfl
    · rfl
    · omega
  exact ⟨hv, by simp [watering_check_and_execute, hv]⟩

/-- Claim C9 witness: a disconnected-sensor sample of 50 yields
`WATER_SENSOR_ERROR` and leaves the timestamp at 5. -/
theorem sensor_error_no_pump_witness :
    watering_check_and_execute
      ⟨50, 3200, 1400, 40, false, true, 99,
        ⟨fun _ => true, fun _ => 2000, fun _ => true, fun _ => false⟩⟩ 5 =
      ⟨WATER_SENSOR_ERROR, 0, 5⟩ :=
  (sensor_error_no_pump
    ⟨50, 3200, 1400, 40, false, true, 99,
      ⟨fun _ => true, fun _ => 2000, fun _ => true, fun _ => false⟩⟩ 5
    (Or.inl (by decide))).2

/-- Claim C2: for every value of `force_override`, `watering_manual`
returns `WATER_RESERVOIR_LOW` whenever the reservoir is low, and
`WATER_BATTERY_LOW` whenever the reservoir is OK but the battery gate
fails, with no pump activation and no timestamp change in either case;
`force_override = true` exempts only the interval gate (`WATER_TOO_SOON`
can then never be returned). -/
theorem watering_manual_safety_gates (fo wl bo ps : Bool) (last cur : Nat) :
    (wl = true → watering_manual fo wl bo ps last cur =
      ⟨WATER_RESERVOIR_LOW, 0, last⟩) ∧
    (wl = false → bo = false → watering_manual fo wl bo ps last cur =
      ⟨WATER_BATTERY_LOW, 0, last⟩) ∧
    (fo = true →
      (watering_manual fo wl bo ps last cur).result ≠ WATER_TOO_SOON) := by
  refine ⟨?_, ?_, ?_⟩
  · intro h; simp [watering_manual, h]
  · intro h1 h2; simp [watering_manual, h1, h2]
  · intro h
    subst h
    simp only [watering_manual]
    split_ifs <;> simp_all

/-- Claim C2 witness: concrete reservoir-low and battery-low manual
watering attempts, with `force_override` on both values. -/
theorem watering_manual_safety_gates_witness :
    watering_manual true true true true 3 9 =
      ⟨WATER_RESERVOIR_LOW, 0, 3⟩ ∧
    watering_manual false false false true 3 9 =
      ⟨WATER_BATTERY_LOW, 0, 3⟩ :=
  ⟨(watering_manual_safety_gates true true true true 3 9).1 rfl,
   (watering_manual_safety_gates false false false true 3 9).2.1 rfl rfl⟩

/-- Claim C10: the target-humidity adjustment keeps the stored setpoint in
0..100: the +5 step applies only at values ≤ 95, the −5 step only at values
≥ 5, the storage setter clamps values above 100 to 100, and from any
starting value ≤ 100 every sequence of adjustment presses keeps both the
working value and the stored value ≤ 100 (values are `Nat`, hence ≥ 0). -/
theorem target_humidity_invariant (start : Nat) (presses : List AdjustPress) :
    (95 < start → humidity_adjust_step start AdjustPress.inc = start) ∧
    (start < 5 → humidity_adjust_step start AdjustPress.dec = start) ∧
    (100 < start → storage_set_optimal_humidity start = 100) ∧
    (start ≤ 100 →
      presses.foldl humidity_adjust_step start ≤ 100 ∧
      handle_humidity_adjustment start presses ≤ 100) := by
  refine ⟨?_, ?_, ?_, ?_⟩
  · intro h
    simp only [humidity_adjust_step]
    rw [if_neg (by omega)]
  · intro h
    simp only [humidity_adjust_step]
    rw [if_neg (by omega)]
  · intro h
    simp [storage_set_optimal_humidity, h]
  · intro h
    have hf := humidity_adjust_foldl_le presses start h
    refine ⟨hf, ?_⟩
    simp only [handle_humidity_adjustment, storage_set_optimal_humidity]
    split <;> omega

/-- Claim C10 witness: a concrete press sequence from the default setpoint
stays within bounds. -/
theorem target_humidity_invariant_witness :
    handle_humidity_adjustment 40
      [AdjustPress.inc, AdjustPress.inc, AdjustPress.dec] ≤ 100 :=
  ((target_humidity_invariant 40
    [AdjustPress.inc, AdjustPress.inc, AdjustPress.dec]).2.2.2
    (by decide)).2

/-- Claim C7 counterexample: in the GENERAL interaction state, the outcome
tuple (NONE, LONG, LONG) — both calibration buttons held long without the
main button — does not enter calibration mode as the claim states: the
handler requires the full three-button combo for calibration and treats a
lone calibration-button press as a deliberate no-op; moreover the full
(LONG, LONG, LONG) tuple enters calibration mode, not the target-humidity
adjustment. -/
theorem general_mode_table_counterexample :
    buttons_handle_interaction PressOutcome.NONE PressOutcome.LONG
        PressOutcome.LONG = ACT_CAL_BUTTON_IGNORED ∧
    buttons_handle_interaction PressOutcome.NONE PressOutcome.LONG
        PressOutcome.LONG ≠ ACT_CALIBRATION_MODE ∧
    buttons_handle_interaction PressOutcome.LONG PressOutcome.LONG
        PressOutcome.LONG = ACT_CALIBRATION_MODE ∧
    buttons_handle_interaction PressOutcome.LONG PressOutcome.LONG
        PressOutcome.LONG ≠ ACT_HUMIDITY_ADJUSTMENT := by
  decide

/-- Claim C7 (amended): in the GENERAL state the handler maps
(LONG, NONE, NONE) to the manual-watering action; the calibration action
requires all three buttons held long, (LONG, LONG, LONG); the
target-humidity adjustment is entered by Main and Cal-A held long without
Cal-B, (LONG, LONG, NONE); the tuple (NONE, LONG, LONG) and lone
calibration-button presses perform no state-changing action, and the empty
tuple does nothing. -/
theorem general_mode_table_amended :
    buttons_handle_interaction PressOutcome.LONG PressOutcome.NONE
        PressOutcome.NONE = ACT_MANUAL_WATERING ∧
    buttons_handle_interaction PressOutcome.LONG PressOutcome.LONG
        PressOutcome.LONG = ACT_CALIBRATION_MODE ∧
    buttons_handle_interaction PressOutcome.LONG PressOutcome.LONG
        PressOutcome.NONE = ACT_HUMIDITY_ADJUSTMENT ∧
    buttons_handle_interaction PressOutcome.NONE PressOutcome.LONG
        PressOutcome.LONG = ACT_CAL_BUTTON_IGNORED ∧
    buttons_handle_interaction PressOutcome.NONE PressOutcome.SHORT
        PressOutcome.NONE = ACT_CAL_BUTTON_IGNORED ∧
    buttons_handle_interaction PressOutcome.NONE PressOutcome.NONE
        PressOutcome.SHORT = ACT_CAL_BUTTON_IGNORED ∧
    buttons_handle_interaction PressOutcome.NONE PressOutcome.NONE
        PressOutcome.NONE = ACT_NO_ACTION := by
  decide

/-- Claim C8: a press held for exactly `BTN_LONG_PRESS_MS` is classified as
a long press, a press released one millisecond earlier as a short press,
and the long classification is latched at most once per physical press. -/
theorem press_classification_spec (hold_ms : Nat) :
    ((button_wait_event hold_ms).1 = BTN_EVENT_LONG_PRESS ↔
      BTN_LONG_PRESS_MS ≤ hold_ms) ∧
    (button_wait_event hold_ms).2 ≤ 1 ∧
    button_wait_event BTN_LONG_PRESS_MS = (BTN_EVENT_LONG_PRESS, 1) ∧
    button_wait_event (BTN_LONG_PRESS_MS - 1) = (BTN_EVENT_SHORT_PRESS, 0) := by
  refine ⟨⟨?_, ?_⟩, ?_, ?_, ?_⟩
  · intro h
    by_contra hn
    rw [button_wait_event_of_lt hold_ms (by omega)] at h
    simp at h
  · intro h
    rw [button_wait_event_of_ge hold_ms h]
  · rcases lt_or_ge hold_ms BTN_LONG_PRESS_MS with h | h
    · rw [button_wait_event_of_lt hold_ms h]; decide
    · rw [button_wait_event_of_ge hold_ms h]
  · exact button_wait_event_of_ge _ le_rfl
  · exact button_wait_event_of_lt _ (by decide)

/-- Claim C1: `watering_check_and_execute` evaluates its five gates in the
fixed order sensor validity, humidity vs. minimum threshold, reservoir,
battery, interval, short-circuiting on the first failing gate; in
particular a valid reading whose derived humidity is at least the stored
minimal threshold yields `WATER_NOT_NEEDED` regardless of reservoir,
battery or interval state, with no pump activation and the timestamp
unchanged. -/
theorem watering_gate_order (env : CheckEnv) (last : Nat) :
    (sensor_reading_valid env.raw = false →
      watering_check_and_execute env last = ⟨WATER_SENSOR_ERROR, 0, last⟩) ∧
    (sensor_reading_valid env.raw = true →
      env.minimal ≤ sensor_raw_to_humidity_percent env.dry env.wet env.raw →
      watering_check_and_execute env last = ⟨WATER_NOT_NEEDED, 0, last⟩) ∧
    (sensor_reading_valid env.raw = true →
      sensor_raw_to_humidity_percent env.dry env.wet env.raw < env.minimal →
      env.water_low = true →
      watering_check_and_execute env last = ⟨WATER_RESERVOIR_LOW, 0, last⟩) ∧
    (sensor_reading_valid env.raw = true →
      sensor_raw_to_humidity_percent env.dry env.wet env.raw < env.minimal →
      env.water_low = false → env.battery_ok = false →
      watering_check_and_execute env last = ⟨WATER_BATTERY_LOW, 0, last⟩) ∧
    (sensor_reading_valid env.raw = true →
      sensor_raw_to_humidity_percent env.dry env.wet env.raw < env.minimal →
      env.water_low = false → env.battery_ok = true →
      interval_elapsed last env.current_time = false →
      watering_check_and_execute env last = ⟨WATER_TOO_SOON, 0, last⟩) := by
  refine ⟨?_, ?_, ?_, ?_, ?_⟩
  · intro h1
    simp [watering_check_and_execute, h1]
  · intro h1 h2
    simp [watering_check_and_execute, h1, h2]
  · intro h1 h2 h3
    have hnot := Nat.not_le.mpr h2
    simp [watering_check_and_execute, h1, h3, hnot]
  · intro h1 h2 h3 h4
    have hnot := Nat.not_le.mpr h2
    simp [watering_check_and_execute, h1, h3, h4, hnot]
  · intro h1 h2 h3 h4 h5
    have hnot := Nat.not_le.mpr h2
    simp [watering_check_and_execute, h1, h3, h4, h5, hnot]

/-- Claim C1 witness: a valid reading of 2000 (derived humidity 66 ≥
threshold 40) yields `WATER_NOT_NEEDED` even though the reservoir is low
and the battery gate fails. -/
theorem watering_gate_order_witness :
    watering_check_and_execute
      ⟨2000, 3200, 1400, 40, true, false, 99,
        ⟨fun _ => true, fun _ => 2000, fun _ => true, fun _ => false⟩⟩ 7 =
      ⟨WATER_NOT_NEEDED, 0, 7⟩ :=
  (watering_gate_order
    ⟨2000, 3200, 1400, 40, true, false, 99,
      ⟨fun _ => true, fun _ => 2000, fun _ => true, fun _ => false⟩⟩ 7).2.1
    rfl (by decide)

/-- Claim C3: the pulse loop never issues more than `MAX_PUMP_PULSES` pump
activations per watering attempt, and a single `pump_run_timed` activation
never runs the pump longer than `PUMP_MAX_DURATION_MS`: a completed run
lasts exactly the requested duration clamped to that ceiling, independent
of any sensor feedback. -/
theorem pump_safety_ceilings (dry wet : Nat) (env : PulseEnv)
    (batt : Nat → Bool) (duration_ms : Nat) :
    (pump_until_max dry wet env).pump_calls ≤ MAX_PUMP_PULSES ∧
    (pump_run_timed batt duration_ms).2 ≤ PUMP_MAX_DURATION_MS ∧
    ((pump_run_timed batt duration_ms).1 = true →
      (pump_run_timed batt duration_ms).2 =
        min duration_ms PUMP_MAX_DURATION_MS) := by
  refine ⟨?_, ?_, ?_⟩
  · simpa using pulse_loop_calls_le dry wet env MAX_PUMP_PULSES 0
  · simp only [pump_run_timed]
    split
    · exact Nat.zero_le _
    · have h := pump_run_loop_snd_le batt
        (if duration_ms > PUMP_MAX_DURATION_MS then PUMP_MAX_DURATION_MS
         else duration_ms) 0
      have hD : (if duration_ms > PUMP_MAX_DURATION_MS then
          PUMP_MAX_DURATION_MS else duration_ms) ≤ PUMP_MAX_DURATION_MS := by
        split <;> omega
      omega
  · intro hs
    simp only [pump_run_timed] at hs ⊢
    by_cases hb : batt 0 = false
    · rw [if_pos hb] at hs
      simp at hs
    · rw [if_neg hb] at hs ⊢
      rw [pump_run_loop_fst_true batt _ 0 hs]
      split <;> omega

/-- Claim C3 witness: a completed 3 ms activation with a healthy battery
runs for exactly `min 3 PUMP_MAX_DURATION_MS` milliseconds, and a concrete
pulse loop stays within the pulse budget. -/
theorem pump_safety_ceilings_witness :
    (pump_run_timed (fun _ => true) 3).2 = min 3 PUMP_MAX_DURATION_MS ∧
    (pump_until_max 3200 1400
      ⟨fun _ => true, fun _ => 1500, fun _ => true, fun _ => false⟩).pump_calls ≤
      MAX_PUMP_PULSES :=
  ⟨(pump_safety_ceilings 3200 1400
      ⟨fun _ => true, fun _ => 1500, fun _ => true, fun _ => false⟩
      (fun _ => true) 3).2.2 (by decide),
   (pump_safety_ceilings 3200 1400
      ⟨fun _ => true, fun _ => 1500, fun _ => true, fun _ => false⟩
      (fun _ => true) 3).1⟩

/-- Claim C4: when every pump activation succeeds, the reservoir and
battery re-checks keep passing and every re-sample is valid, the pulse loop
issues exactly `MAX_PUMP_PULSES` pulses and returns `WATER_PARTIAL` if the
re-sampled humidity never reaches `DEFAULT_MAX_HUMIDITY`, and issues
exactly k pulses and returns `WATER_OK` if the re-sample after pulse k is
the first to reach it. -/
theorem pulse_loop_dosing (dry wet : Nat) (env : PulseEnv)
    (hpump : ∀ k, env.pump_success k = true)
    (hbatt : ∀ k, env.battery_ok k = true)
    (hwater : ∀ k, env.water_low k = false)
    (hvalid : ∀ k, sensor_reading_valid (env.resample_raw k) = true) :
    ((∀ k, sensor_raw_to_humidity_percent dry wet (env.resample_raw k) <
        DEFAULT_MAX_HUMIDITY) →
      pump_until_max dry wet env =
        ⟨WATER_PARTIAL, MAX_PUMP_PULSES, MAX_PUMP_PULSES⟩) ∧
    (∀ k, 1 ≤ k → k ≤ MAX_PUMP_PULSES →
      DEFAULT_MAX_HUMIDITY ≤
        sensor_raw_to_humidity_percent dry wet (env.resample_raw (k - 1)) →
      (∀ j, j < k - 1 →
        sensor_raw_to_humidity_percent dry wet (env.resample_raw j) <
          DEFAULT_MAX_HUMIDITY) →
      pump_until_max dry wet env = ⟨WATER_OK, k, k⟩) := by
  constructor
  · intro hlow
    simpa [pump_until_max] using
      pulse_loop_all_low dry wet env hpump hbatt hwater hvalid hlow
        MAX_PUMP_PULSES 0
  · intro k hk1 hk2 hhit hbefore
    have h := pulse_loop_first_hit dry wet env hpump hvalid (k - 1) hhit
      hbefore hbatt hwater MAX_PUMP_PULSES 0 (Nat.zero_le _) (by omega)
    rw [pump_until_max, h]
    have hk : k - 1 + 1 = k := by omega
    rw [hk]

/-- Claim C4 witness: with a healthy pump, battery and reservoir and a
first re-sample already at target humidity, the loop issues exactly one
pulse and returns `WATER_OK`. -/
theorem pulse_loop_dosing_witness :
    pump_until_max 3200 1400
      ⟨fun _ => true, fun _ => 1500, fun _ => true, fun _ => false⟩ =
      ⟨WATER_OK, 1, 1⟩ :=
  (pulse_loop_dosing 3200 1400
    ⟨fun _ => true, fun _ => 1500, fun _ => true, fun _ => false⟩
    (fun _ => rfl) (fun _ => rfl) (fun _ => rfl) (fun _ => rfl)).2 1
    (by decide) (by decide) (by decide)
    (fun j hj => absurd hj (by omega))

/-- Claim C5: the pulse loop returns `WATER_PUMP_FAILED` exactly when the
very first pump activation fails (a later failure yields `WATER_PARTIAL`
through the loop break), and `watering_check_and_execute` commits a new
last-watering timestamp exactly for the `WATER_OK` and `WATER_PARTIAL`
outcomes, leaving it unchanged for `WATER_PUMP_FAILED` and every
gate-failure outcome. -/
theorem pulse_failure_and_timestamp (dry wet : Nat) (penv : PulseEnv)
    (env : CheckEnv) (last : Nat) :
    ((pump_until_max dry wet penv).result = WATER_PUMP_FAILED ↔
      penv.pump_success 0 = false) ∧
    ((watering_check_and_execute env last).result = WATER_OK ∨
      (watering_check_and_execute env last).result = WATER_PARTIAL →
      (watering_check_and_execute env last).last_watering =
        env.current_time) ∧
    ((watering_check_and_execute env last).result ≠ WATER_OK →
      (watering_check_and_execute env last).result ≠ WATER_PARTIAL →
      (watering_check_and_execute env last).last_watering = last) := by
  refine ⟨⟨?_, ?_⟩, (check_timestamp_spec env last).1,
    (check_timestamp_spec env last).2⟩
  · intro h
    by_contra hn
    have hs : penv.pump_success 0 = true := by
      cases hps : penv.pump_success 0
      · exact absurd hps hn
      · rfl
    rw [pump_until_max, show MAX_PUMP_PULSES = 7 + 1 from rfl,
      pump_until_max_loop_succ,
      if_neg (show ¬ penv.pump_success 0 = false by simp [hs])] at h
    split_ifs at h
    exact pulse_loop_no_fail_of_pos dry wet penv 7 (0 + 1) (by omega) h
  · intro h
    rw [pump_until_max, show MAX_PUMP_PULSES = 7 + 1 from rfl,
      pump_until_max_loop_succ, if_pos h, if_pos rfl]

/-- Claim C5 witness: on a gate-failure outcome (invalid sensor sample 50)
the stored last-watering timestamp stays at its prior value 12. -/
theorem pulse_failure_and_timestamp_witness :
    (watering_check_and_execute
      ⟨50, 3200, 1400, 40, false, true, 99,
        ⟨fun _ => true, fun _ => 2000, fun _ => true, fun _ => false⟩⟩
      12).last_watering = 12 :=
  (pulse_failure_and_timestamp 3200 1400
    ⟨fun _ => true, fun _ => 2000, fun _ => true, fun _ => false⟩
    ⟨50, 3200, 1400, 40, false, true, 99,
      ⟨fun _ => true, fun _ => 2000, fun _ => true, fun _ => false⟩⟩
    12).2.2 (by decide) (by decide)

end Plant
